import Mathlib

/-!
Verification development for the rendoor-platform listing-ingestion core.

The definitions below are a shallow embedding of the Python sources under
src/core: the SHA-256 digest used by hashlib, the listing/owner domain model
(src/core/domain/listing), the DomRia normalizer
(src/core/adapters/normalizers/domria.py), the retry and rate-limiter HTTP
policies (src/core/infra/http/policies), the photo persistence effect of the
database loader (src/core/adapters/loaders/database.py), and the ETL
orchestrator (src/core/adapters/etl/domria_pipeline.py).  Machine floats of
the source are modelled as rationals, timestamps as integers, and Python
exceptions as Except values.
-/

namespace Rendoor

/-! ### SHA-256 (hashlib.sha256, big-endian, over byte lists)

Bytes are naturals below 256; 32-bit words are naturals reduced mod 2^32.
Round constants are derived, as in the FIPS 180-4 specification, from the
fractional parts of the cube/square roots of the first primes. -/

def M32 : Nat := 4294967296

def mask32 (x : Nat) : Nat := x % M32

def rotr (n x : Nat) : Nat := mask32 ((x >>> n) ||| (x <<< (32 - n)))

def shr (n x : Nat) : Nat := x >>> n

def bigSigma0 (x : Nat) : Nat := rotr 2 x ^^^ rotr 13 x ^^^ rotr 22 x

def bigSigma1 (x : Nat) : Nat := rotr 6 x ^^^ rotr 11 x ^^^ rotr 25 x

def smallSigma0 (x : Nat) : Nat := rotr 7 x ^^^ rotr 18 x ^^^ shr 3 x

def smallSigma1 (x : Nat) : Nat := rotr 17 x ^^^ rotr 19 x ^^^ shr 10 x

def chF (x y z : Nat) : Nat := (x &&& y) ^^^ ((x ^^^ (M32 - 1)) &&& z)

def majF (x y z : Nat) : Nat := (x &&& y) ^^^ (x &&& z) ^^^ (y &&& z)

def first64Primes : List Nat :=
  [2, 3, 5, 7, 11, 13, 17, 19, 23, 29, 31, 37, 41, 43, 47, 53,
   59, 61, 67, 71, 73, 79, 83, 89, 97, 101, 103, 107, 109, 113, 127, 131,
   137, 139, 149, 151, 157, 163, 167, 173, 179, 181, 191, 193, 197, 199, 211, 223,
   227, 229, 233, 239, 241, 251, 257, 263, 269, 271, 277, 281, 283, 293, 307, 311]

/-- Integer cube root by bisection (enough fuel for arguments below 2^120). -/
def icbrtGo (n : Nat) : Nat → Nat → Nat → Nat
  | 0, lo, _ => lo
  | fuel + 1, lo, hi =>
    if hi ≤ lo then lo
    else
      let mid := (lo + hi + 1) / 2
      if mid * mid * mid ≤ n then icbrtGo n fuel mid hi
      else icbrtGo n fuel lo (mid - 1)

def icbrt (n : Nat) : Nat := icbrtGo n 80 0 1099511627776

/-- First 32 fractional bits of the cube root of a natural number. -/
def fracCbrt32 (p : Nat) : Nat := icbrt (p <<< 96) % M32

/-- First 32 fractional bits of the square root of a natural number. -/
def fracSqrt32 (p : Nat) : Nat := Nat.sqrt (p <<< 64) % M32

def roundK : List Nat := first64Primes.map fracCbrt32

structure Sha256State where
  a : Nat
  b : Nat
  c : Nat
  d : Nat
  e : Nat
  f : Nat
  g : Nat
  h : Nat
deriving DecidableEq

def initState : Sha256State :=
  { a := fracSqrt32 2, b := fracSqrt32 3, c := fracSqrt32 5, d := fracSqrt32 7,
    e := fracSqrt32 11, f := fracSqrt32 13, g := fracSqrt32 17, h := fracSqrt32 19 }

def sha256Round (s : Sha256State) (kw : Nat × Nat) : Sha256State :=
  let t1 := (s.h + bigSigma1 s.e + chF s.e s.f s.g + kw.1 + kw.2) % M32
  let t2 := (bigSigma0 s.a + majF s.a s.b s.c) % M32
  { a := (t1 + t2) % M32, b := s.a, c := s.b, d := s.c,
    e := (s.d + t1) % M32, f := s.e, g := s.f, h := s.g }

/-- One step of the message-schedule extension; the accumulator keeps the
schedule reversed, newest word first. -/
def scheduleStep (ws : List Nat) : Nat :=
  (smallSigma1 (ws.getD 1 0) + ws.getD 6 0 + smallSigma0 (ws.getD 14 0) + ws.getD 15 0) % M32

def extendSchedule (w16 : List Nat) : List Nat :=
  ((List.range 48).foldl (fun acc _ => scheduleStep acc :: acc) w16.reverse).reverse

/-- Split a list into chunks of n + 1 elements (fuel keeps the recursion
structural so the kernel can evaluate it). -/
def chunksGo (n : Nat) : Nat → List Nat → List (List Nat)
  | 0, _ => []
  | fuel + 1, l => if l = [] then [] else (l.take (n + 1)) :: chunksGo n fuel (l.drop (n + 1))

def chunks (n : Nat) (l : List Nat) : List (List Nat) := chunksGo n l.length l

def word32 (bs : List Nat) : Nat :=
  ((bs.getD 0 0) <<< 24) ||| ((bs.getD 1 0) <<< 16) ||| ((bs.getD 2 0) <<< 8) ||| bs.getD 3 0

def blockWords (block : List Nat) : List Nat := (chunks 3 block).map word32

def wordBytes (n : Nat) : List Nat :=
  [(n >>> 24) % 256, (n >>> 16) % 256, (n >>> 8) % 256, n % 256]

def lenBytes64 (n : Nat) : List Nat :=
  [(n >>> 56) % 256, (n >>> 48) % 256, (n >>> 40) % 256, (n >>> 32) % 256,
   (n >>> 24) % 256, (n >>> 16) % 256, (n >>> 8) % 256, n % 256]

def padMessage (msg : List Nat) : List Nat :=
  let L := msg.length
  let z := (120 - ((L + 1) % 64)) % 64
  msg ++ [128] ++ List.replicate z 0 ++ lenBytes64 (8 * L)

def compressBlock (hs : Sha256State) (block : List Nat) : Sha256State :=
  let w := extendSchedule (blockWords block)
  let s := (roundK.zip w).foldl sha256Round hs
  { a := (hs.a + s.a) % M32, b := (hs.b + s.b) % M32, c := (hs.c + s.c) % M32,
    d := (hs.d + s.d) % M32, e := (hs.e + s.e) % M32, f := (hs.f + s.f) % M32,
    g := (hs.g + s.g) % M32, h := (hs.h + s.h) % M32 }

def sha256Digest (msg : List Nat) : List Nat :=
  let fin := (chunks 63 (padMessage msg)).foldl compressBlock initState
  wordBytes fin.a ++ wordBytes fin.b ++ wordBytes fin.c ++ wordBytes fin.d ++
  wordBytes fin.e ++ wordBytes fin.f ++ wordBytes fin.g ++ wordBytes fin.h

def hexDigitChar (n : Nat) : Char :=
  if n < 10 then Char.ofNat (48 + n) else Char.ofNat (87 + n)

def byteHexChars (b : Nat) : List Char := [hexDigitChar (b / 16 % 16), hexDigitChar (b % 16)]

def bytesToHex (bs : List Nat) : String := String.mk (bs.flatMap byteHexChars)

/-- UTF-8 encoding of one character (str.encode). -/
def charUtf8 (c : Char) : List Nat :=
  let n := c.toNat
  if n < 128 then [n]
  else if n < 2048 then [192 + n / 64, 128 + n % 64]
  else if n < 65536 then [224 + n / 4096, 128 + (n / 64) % 64, 128 + n % 64]
  else [240 + n / 262144, 128 + (n / 4096) % 64, 128 + (n / 64) % 64, 128 + n % 64]

def strUtf8 (s : String) : List Nat := s.data.flatMap charUtf8

/-- hashlib.sha256(key.encode()).hexdigest() -/
def sha256Hex (s : String) : String := bytesToHex (sha256Digest (strUtf8 s))

/-! ### Python string and number helpers -/

/-- Python slicing s[:n] (characters). -/
def strTake (s : String) (n : Nat) : String := String.mk (s.data.take n)

/-- Python sep.join(parts). -/
def pyJoin (sep : String) : List String → String
  | [] => ""
  | [x] => x
  | x :: rest => x ++ sep ++ pyJoin sep rest

/-- Python s.strip(): drop leading and trailing whitespace. -/
def pyStrip (s : String) : String :=
  String.mk (((s.data.dropWhile Char.isWhitespace).reverse.dropWhile Char.isWhitespace).reverse)

/-- Python s.lower() (character-wise). -/
def pyLower (s : String) : String := String.mk (s.data.map Char.toLower)

/-- Truthiness of an optional Python string (None and "" are falsy). -/
def truthyS : Option String → Bool
  | none => false
  | some s => s ≠ ""

/-- Python `a or b` on optional strings. -/
def pyOrS (a b : Option String) : Option String :=
  match a with
  | some s => if s ≠ "" then some s else b
  | none => b

/-- Model of repr(float) for the rationals that occur here: integral values
print with a trailing ".0", values with one decimal place print that digit. -/
def floatStr (q : ℚ) : String :=
  if q.den = 1 then toString q.num ++ ".0"
  else
    let t := (10 * q).num
    let sign := if t < 0 then "-" else ""
    sign ++ toString (t.natAbs / 10) ++ "." ++ toString (t.natAbs % 10)

/-- round-half-to-even on rationals, as Python round does. -/
def roundHalfEven (x : ℚ) : Int :=
  let f := ⌊x⌋
  let r := x - f
  if r < 1 / 2 then f
  else if 1 / 2 < r then f + 1
  else if f % 2 = 0 then f else f + 1

/-- Python round(x, 1). -/
def pyRound1 (x : ℚ) : ℚ := ((roundHalfEven (10 * x) : ℚ)) / 10

/-- Python int() truncation toward zero on a rational. -/
def pyInt (q : ℚ) : Int := Int.tdiv q.num q.den

/-- A numeric JSON payload value: Python int or float. -/
inductive PyNum
  | int (n : Int)
  | float (q : ℚ)
deriving DecidableEq

/-- Python str() of a payload number. -/
def PyNum.str : PyNum → String
  | .int n => toString n
  | .float q => floatStr q

/-- Python float() of a payload number. -/
def PyNum.toQ : PyNum → ℚ
  | .int n => (n : ℚ)
  | .float q => q

/-- Python truthiness of a payload number. -/
def PyNum.truthy : PyNum → Bool
  | .int n => n ≠ 0
  | .float q => q ≠ 0

def optNumStr : Option PyNum → String
  | some v => v.str
  | none => ""

def optIntStr : Option Int → String
  | some n => toString n
  | none => ""

/-- Insert a string after all already-present elements that are ≤ it. -/
def insertStr (x : String) : List String → List String
  | [] => [x]
  | y :: ys => if x < y then x :: y :: ys else y :: insertStr x ys

/-- Python sorted() on strings (stable; code-point order). -/
def sortStrings (l : List String) : List String := l.foldl (fun acc x => insertStr x acc) []

/-- Python float(s) for plain decimal literals; anything else fails. -/
def digitsToNat (cs : List Char) : Option Nat :=
  if cs.all Char.isDigit then
    some (cs.foldl (fun acc c => 10 * acc + (c.toNat - 48)) 0)
  else none

def parseUnsigned (cs : List Char) : Option ℚ :=
  match cs.splitOn '.' with
  | [w] => if w = [] then none else (digitsToNat w).map (fun n => (n : ℚ))
  | [w, f] =>
    if w = [] ∧ f = [] then none
    else
      let wn := if w = [] then some 0 else digitsToNat w
      let fn := if f = [] then some 0 else digitsToNat f
      match wn, fn with
      | some a, some b => some ((a : ℚ) + (b : ℚ) / ((10 : ℚ) ^ f.length))
      | _, _ => none
  | _ => none

def parseFloat (s : String) : Option ℚ :=
  match s.trim.data with
  | [] => none
  | '+' :: rest => parseUnsigned rest
  | '-' :: rest => (parseUnsigned rest).map Neg.neg
  | cs => parseUnsigned cs

/-! ### Domain value objects (src/core/domain/listing/value.py)

Dataclass __post_init__ validation is modelled by smart constructors
returning Except (a Python ValueError is an error value). -/

structure Money where
  amount : ℚ
  currency : String
deriving DecidableEq

def mkMoney (amount : ℚ) (currency : String) : Except String Money :=
  if amount < 0 then .error "Amount cannot be negative"
  else if currency = "" ∨ currency.length ≠ 3 then .error "Currency must be 3-letter code"
  else .ok { amount := amount, currency := currency }

structure GeoLocation where
  latitude : ℚ
  longitude : ℚ
deriving DecidableEq

def mkGeoLocation (lat lon : ℚ) : Except String GeoLocation :=
  if ¬ (-90 ≤ lat ∧ lat ≤ 90) then .error "Latitude must be between -90 and 90"
  else if ¬ (-180 ≤ lon ∧ lon ≤ 180) then .error "Longitude must be between -180 and 180"
  else .ok { latitude := lat, longitude := lon }

structure Address where
  country : String
  state : Option String
  city : String
  district : Option String
  street : Option String
  building : Option String
  zip_code : Option String
deriving DecidableEq

/-- Address.to_search_key: normalized key for duplicate search. -/
def Address.to_search_key (a : Address) : String :=
  let parts := [pyStrip (pyLower a.city), pyStrip (pyLower (a.district.getD "")),
                pyStrip (pyLower (a.street.getD "")), pyStrip (pyLower (a.building.getD ""))]
  pyJoin "|" (parts.filter (fun p => p ≠ ""))

structure Image where
  url : String
  order : Int
deriving DecidableEq

def mkImage (url : String) (order : Int) : Except String Image :=
  if url = "" then .error "Image URL cannot be empty"
  else if order < 0 then .error "Order cannot be negative"
  else .ok { url := url, order := order }

structure ContactInfo where
  phone : Option String
  telegram : Option String
  viber : Option String
  whatsapp : Option String
  email : Option String
deriving DecidableEq

/-- OwnerType literals are modelled as plain strings
("private" | "realtor" | "agency" | "unknown"). -/
structure OwnerInfo where
  name : Option String
  owner_type : String
  contact : Option ContactInfo
deriving DecidableEq

inductive ListingStatus
  | active | rented | removed | duplicate | archived
deriving DecidableEq

/-! ### Owner fingerprinting (src/core/domain/listing/owner.py and the
loader variant in src/core/adapters/loaders/database.py) -/

/-- Python "".join(c for c in phone if c.isdigit()). -/
def normalizedPhone (p : String) : String := String.mk (p.data.filter Char.isDigit)

/-- Python s.lstrip("@"). -/
def lstripAt (s : String) : String := String.mk (s.data.dropWhile (fun c => c = '@'))

/-- owner.py generate_owner_fingerprint: raises when no contact channel is
truthy, otherwise hashes the sorted, pipe-joined normalized channels. -/
def generate_owner_fingerprint (contact : ContactInfo) : Except String String :=
  let parts : List String := []
  let parts := match contact.phone with
    | some p => if p ≠ "" then parts ++ ["phone:" ++ normalizedPhone p] else parts
    | none => parts
  let parts := match contact.email with
    | some e => if e ≠ "" then parts ++ ["email:" ++ pyStrip (pyLower e)] else parts
    | none => parts
  let parts := match contact.telegram with
    | some t => if t ≠ "" then parts ++ ["tg:" ++ lstripAt (pyStrip (pyLower t))] else parts
    | none => parts
  if parts = [] then .error "At least one contact method is required for fingerprinting"
  else .ok (strTake (sha256Hex (pyJoin "|" (sortStrings parts))) 32)

/-- database.py DatabaseListingLoader._generate_owner_fingerprint: falls back
to the owner name and finally to the placeholder "unknown" instead of
raising. -/
def dbOwnerFingerprint (info : OwnerInfo) : String :=
  let parts : List String := []
  let parts := match info.contact with
    | some c =>
      let parts := match c.phone with
        | some p => if p ≠ "" then parts ++ ["phone:" ++ normalizedPhone p] else parts
        | none => parts
      let parts := match c.email with
        | some e => if e ≠ "" then parts ++ ["email:" ++ pyLower e] else parts
        | none => parts
      match c.telegram with
        | some t => if t ≠ "" then parts ++ ["tg:" ++ pyLower t] else parts
        | none => parts
    | none => parts
  let parts := if parts = [] then
      match info.name with
      | some n => if n ≠ "" then ["name:" ++ pyLower n] else parts
      | none => parts
    else parts
  let parts := if parts = [] then ["unknown"] else parts
  strTake (sha256Hex (pyJoin "|" parts)) 64

/-! ### Listing aggregate (src/core/domain/listing/listing.py)

Timestamps are integers; the current wall-clock time is threaded as an
explicit `now` parameter. -/

structure Listing where
  id : Int
  source_code : String
  external_id : String
  url : String
  title : String
  owner_id : Option Int
  owner_info : Option OwnerInfo
  price : Option Money
  address : Option Address
  location : Option GeoLocation
  room_count : Option Int
  area : Option ℚ
  floor : Option Int
  total_floors : Option Int
  description : Option String
  photos : List Image
  status : ListingStatus
  is_verified : Bool
  view_count : Int
  fingerprint : String
  first_seen_at : Int
  last_seen_at : Int
  created_at : Int
  updated_at : Int
deriving DecidableEq

/-- The pipe-joined key Listing._generate_fingerprint hashes: address search
key, room count, area rounded to one decimal, floor — or (source_code,
external_id) when none of those parts is present. -/
def listingFingerprintKey (source_code external_id : String) (address : Option Address)
    (room_count : Option Int) (area : Option ℚ) (floor : Option Int) : String :=
  let parts : List String := []
  let parts := match address with
    | some a => parts ++ [a.to_search_key]
    | none => parts
  let parts := match room_count with
    | some r => parts ++ ["rooms:" ++ toString r]
    | none => parts
  let parts := match area with
    | some ar => parts ++ ["area:" ++ floatStr (pyRound1 ar)]
    | none => parts
  let parts := match floor with
    | some f => parts ++ ["floor:" ++ toString f]
    | none => parts
  let parts := if parts = [] then [source_code, external_id] else parts
  pyJoin "|" parts

/-- Listing._generate_fingerprint: sha256 of the key, truncated to 32 hex
characters. -/
def listingGenFingerprint (source_code external_id : String) (address : Option Address)
    (room_count : Option Int) (area : Option ℚ) (floor : Option Int) : String :=
  strTake (sha256Hex (listingFingerprintKey source_code external_id address room_count area floor)) 32

/-- Listing.__init__: validation of required fields, normalization of
identity fields, fingerprint fallback, timestamp defaults. -/
def mkListing (now : Int) (listing_id : Int) (source_code external_id url title : String)
    (owner_id : Option Int) (owner_info : Option OwnerInfo) (price : Option Money)
    (address : Option Address) (location : Option GeoLocation) (room_count : Option Int)
    (area : Option ℚ) (floor : Option Int) (total_floors : Option Int)
    (description : Option String) (photos : List Image) (status : ListingStatus)
    (is_verified : Bool) (view_count : Int) (fingerprint : Option String)
    (first_seen_at last_seen_at created_at updated_at : Option Int) :
    Except String Listing :=
  if source_code = "" then .error "source_code is required"
  else if external_id = "" then .error "external_id is required"
  else if url = "" then .error "url is required"
  else if title = "" then .error "title is required"
  else
    let sc := pyLower (pyStrip source_code)
    let eid := pyStrip external_id
    let fp := match fingerprint with
      | some f =>
        if f ≠ "" then f else listingGenFingerprint sc eid address room_count area floor
      | none => listingGenFingerprint sc eid address room_count area floor
    .ok { id := listing_id, source_code := sc, external_id := eid, url := pyStrip url,
          title := pyStrip title, owner_id := owner_id, owner_info := owner_info,
          price := price, address := address, location := location,
          room_count := room_count, area := area, floor := floor,
          total_floors := total_floors, description := description, photos := photos,
          status := status, is_verified := is_verified, view_count := view_count,
          fingerprint := fp, first_seen_at := first_seen_at.getD now,
          last_seen_at := last_seen_at.getD now, created_at := created_at.getD now,
          updated_at := updated_at.getD now }

/-- Listing.change_status. -/
def Listing.change_status (l : Listing) (new_status : ListingStatus) (now : Int) : Listing :=
  if l.status ≠ new_status then { l with status := new_status, updated_at := now } else l

/-- Listing.is_duplicate_of. -/
def Listing.is_duplicate_of (l other : Listing) : Bool :=
  if l.fingerprint = other.fingerprint then true
  else
    match l.address, other.address with
    | some a, some oa =>
      decide (a.to_search_key = oa.to_search_key ∧
        l.room_count = other.room_count ∧ l.floor = other.floor ∧
        |l.area.getD 0 - other.area.getD 0| < 5)
    | _, _ => false

/-! ### DuplicateDetectionService (src/core/domain/listing/service.py) -/

/-- DuplicateDetectionService.merge_duplicates: duplicates get status
"duplicate"; the primary keeps the earliest first-seen timestamp.  Python
mutates the objects in place; the state is passed explicitly here. -/
def merge_duplicates (now : Int) (primary : Listing) (duplicates : List Listing) :
    Listing × List Listing :=
  let dups := duplicates.map (fun d => d.change_status ListingStatus.duplicate now)
  let earliest := (duplicates.map (fun d => d.first_seen_at)).foldl min primary.first_seen_at
  let primary := if earliest < primary.first_seen_at then
      { primary with first_seen_at := earliest }
    else primary
  (primary, dups)

/-! ### DomRia raw payload and normalizer
(src/core/domain/ingest/raw_listing.py, src/core/adapters/normalizers/domria.py)

The JSON payload is modelled with the fields the normalizer reads, typed as
the source uses them; photos is the dict's values in insertion order. -/

structure PhotoEntry where
  file : Option String
  ordering : Option Int
deriving DecidableEq

structure DomRiaPayload where
  realty_id : Option Int
  beautiful_url : Option String
  location : Option String
  rooms_count : Option Int
  total_square_meters : Option PyNum
  floor : Option Int
  price : Option PyNum
  currency_type_id : Option Int
  description_uk : Option String
  description : Option String
  city_name_uk : Option String
  city_name : Option String
  district_name_uk : Option String
  district_name : Option String
  street_name_uk : Option String
  street_name : Option String
  building_number_str : Option String
  state_name_uk : Option String
  state_name : Option String
  realty_type_name_uk : Option String
  realty_type_name : Option String
  latitude : Option PyNum
  longitude : Option PyNum
  photos : List PhotoEntry
deriving DecidableEq

structure RawListing where
  source_code : String
  external_id : String
  payload : DomRiaPayload
deriving DecidableEq

/-- DomRiaNormalizer._build_url. -/
def buildUrl (beautiful_url : String) : String :=
  if beautiful_url = "" then "" else "https://dom.ria.com/" ++ beautiful_url

/-- DomRiaNormalizer._build_title. -/
def buildTitle (p : DomRiaPayload) : String :=
  let parts : List String := []
  let rt := pyOrS p.realty_type_name_uk p.realty_type_name
  let parts := if truthyS rt then parts ++ [rt.getD ""] else parts
  let parts := match p.rooms_count with
    | some r => if r ≠ 0 then parts ++ [toString r ++ "-кімн."] else parts
    | none => parts
  let parts := match p.total_square_meters with
    | some v => if v.truthy then parts ++ [v.str ++ " м²"] else parts
    | none => parts
  let city := pyOrS p.city_name_uk p.city_name
  let parts := if truthyS city then parts ++ [city.getD ""] else parts
  let district := pyOrS p.district_name_uk p.district_name
  let parts := if truthyS district then parts ++ [district.getD ""] else parts
  if parts = [] then "Без назви" else pyJoin ", " parts

/-- The pipe-joined key DomRiaNormalizer._generate_fingerprint hashes:
str() of realty_id, location, rooms_count, total_square_meters, floor and
price, with "" for missing fields. -/
def domriaFingerprintKey (p : DomRiaPayload) : String :=
  pyJoin "|" [optIntStr p.realty_id, p.location.getD "", optIntStr p.rooms_count,
              optNumStr p.total_square_meters, optIntStr p.floor, optNumStr p.price]

/-- DomRiaNormalizer._generate_fingerprint: the full (untruncated) sha256
hexdigest of the payload key. -/
def domriaGenFingerprint (p : DomRiaPayload) : String := sha256Hex (domriaFingerprintKey p)

/-- DomRiaNormalizer._extract_price. -/
def extractPrice (p : DomRiaPayload) : Except String (Option Money) :=
  match p.price with
  | none => .ok none
  | some v =>
    let currency := match p.currency_type_id.getD 3 with
      | 1 => "USD"
      | 2 => "EUR"
      | 3 => "UAH"
      | _ => "UAH"
    (mkMoney v.toQ currency).map some

/-- DomRiaNormalizer._extract_address. -/
def extractAddress (p : DomRiaPayload) : Option Address :=
  match pyOrS p.city_name_uk p.city_name with
  | none => none
  | some c =>
    if c = "" then none
    else some { country := "Україна",
                state := pyOrS p.state_name_uk p.state_name,
                city := c,
                district := pyOrS p.district_name_uk p.district_name,
                street := pyOrS p.street_name_uk p.street_name,
                building := p.building_number_str,
                zip_code := none }

/-- DomRiaNormalizer._extract_location.  The try/except around the combined
"lat,lon" parse turns both parse failures and GeoLocation range errors into
None; the discrete latitude/longitude branch sits outside the try, so a
range error there propagates. -/
def extractLocation (p : DomRiaPayload) : Except String (Option GeoLocation) :=
  if ¬ truthyS p.location then
    match p.latitude, p.longitude with
    | some lat, some lon => (mkGeoLocation lat.toQ lon.toQ).map some
    | _, _ => .ok none
  else
    let parts := (p.location.getD "").splitOn ","
    if parts.length = 2 then
      match parseFloat (parts.getD 0 ""), parseFloat (parts.getD 1 "") with
      | some la, some lo =>
        match mkGeoLocation la lo with
        | .ok g => .ok (some g)
        | .error _ => .ok none
      | _, _ => .ok none
    else .ok none

/-- Sort key in _extract_photos: x.get("ordering", 999). -/
def photoSortKey (pd : PhotoEntry) : Int := pd.ordering.getD 999

def insertPhoto (x : PhotoEntry) : List PhotoEntry → List PhotoEntry
  | [] => [x]
  | y :: ys => if photoSortKey x < photoSortKey y then x :: y :: ys else y :: insertPhoto x ys

/-- Python sorted(photos.values(), key=ordering-or-999); stable. -/
def sortPhotos (l : List PhotoEntry) : List PhotoEntry :=
  l.foldl (fun acc x => insertPhoto x acc) []

def buildPhotos : List PhotoEntry → Except String (List Image)
  | [] => .ok []
  | pd :: rest =>
    match pd.file with
    | some f =>
      if f ≠ "" then
        match mkImage ("https://cdn.riastatic.com/" ++ f) (pd.ordering.getD 0) with
        | .ok img => (buildPhotos rest).map (fun l => img :: l)
        | .error e => .error e
      else buildPhotos rest
    | none => buildPhotos rest

/-- DomRiaNormalizer._extract_photos. -/
def extractPhotos (p : DomRiaPayload) : Except String (List Image) :=
  if p.photos = [] then .ok []
  else buildPhotos (sortPhotos p.photos)

/-- DomRiaNormalizer.normalize.  The three fallible extraction steps raise in
source order (price, then location, then photos), then the Listing
constructor validates; explicit matches model the exception propagation. -/
def domriaNormalize (now : Int) (raw : RawListing) : Except String Listing :=
  let p := raw.payload
  let external_id := optIntStr p.realty_id
  let url := buildUrl (p.beautiful_url.getD "")
  let title := buildTitle p
  let fingerprint := domriaGenFingerprint p
  match extractPrice p with
  | .error e => .error e
  | .ok price =>
    match extractLocation p with
    | .error e => .error e
    | .ok location =>
      let area := p.total_square_meters.map PyNum.toQ
      let description := pyOrS p.description_uk p.description
      match extractPhotos p with
      | .error e => .error e
      | .ok photos =>
        mkListing now (-1) raw.source_code external_id url title
          none none price (extractAddress p) location p.rooms_count area p.floor none
          description photos ListingStatus.active false 0 (some fingerprint)
          none none none none

/-! ### Retry policy (src/core/infra/http/policies/retry.py)

The attempt outcomes of call_next are modelled as a function from the
attempt number; sleeping between attempts does not affect the result. -/

structure Response where
  status_code : Nat
  body : String
deriving DecidableEq

/-- min(base * 2^(attempt-1), cap): the pre-jitter exponential delay. -/
def expDelay (base cap : ℚ) (attempt : Nat) : ℚ := min (base * 2 ^ (attempt - 1)) cap

/-- RetryPolicy._sleep_duration, with the uniform jitter sample u passed in
explicitly. -/
def sleepDuration (backoff_type : String) (base cap : ℚ) (attempt : Nat) (u : ℚ) :
    Except String ℚ :=
  if backoff_type = "fixed" then .ok (min base cap)
  else if backoff_type = "linear" then .ok (min (base * attempt) cap)
  else if backoff_type = "exp" then .ok (expDelay base cap attempt)
  else if backoff_type = "exp_jitter" then .ok (expDelay base cap attempt * u)
  else .error ("Unknown backoff type: " ++ backoff_type)

/-- The attempt loop of RetryPolicy.send, walking the list of remaining
attempt numbers.  last_response is initialized to None and never assigned in
the source, so exhausting the loop returns none. -/
def retryGo (retry_on : List Nat) (call : Nat → Except String Response) :
    List Nat → Except String (Option Response)
  | [] => .ok none
  | a :: rest =>
    match call a with
    | .ok resp =>
      if resp.status_code ∈ retry_on then retryGo retry_on call rest
      else .ok (some resp)
    | .error e => if rest = [] then .error e else retryGo retry_on call rest

/-- RetryPolicy.send for attempts 1..retry_attempts. -/
def retrySend (retry_attempts : Nat) (retry_on : List Nat)
    (call : Nat → Except String Response) : Except String (Option Response) :=
  retryGo retry_on call (List.range' 1 retry_attempts)

/-! ### Rate limiter (src/core/infra/http/policies/rate_limiter.py)

The monotonic clock is a rational; _acquire's busy-wait loop is modelled by
a step relation: a lazy refill at a later time, or the decrement the loop
performs once it has observed a positive token count (the asyncio lock
serializes these steps). -/

structure RLState where
  capacity : Int
  tokens : Int
  rps : ℚ
  interval : ℚ
  last_request_time : ℚ
deriving DecidableEq

/-- RateLimiterPolicy.__init__ (rps must be nonzero in Python, else 1/rps
raises ZeroDivisionError). -/
def rlInit (rps : ℚ) (burst : Int) (now : ℚ) : RLState :=
  { capacity := burst, tokens := burst, rps := rps, interval := 1 / rps,
    last_request_time := now }

/-- RateLimiterPolicy._refill_tokens. -/
def rlRefill (s : RLState) (now : ℚ) : RLState :=
  let tokens_to_add := pyInt ((now - s.last_request_time) * s.rps)
  if tokens_to_add > 0 then
    { s with tokens := min (s.tokens + tokens_to_add) s.capacity, last_request_time := now }
  else s

/-- The decrement at the end of _acquire's wait loop. -/
def rlAcquireDec (s : RLState) : RLState := { s with tokens := s.tokens - 1 }

/-- One observable transition of the limiter state: a refill at a time not
earlier than the stored last refill time (the clock is monotonic), or the
decrement, which the wait loop only reaches with a positive token count. -/
inductive RLStep : RLState → RLState → Prop
  | refill (s : RLState) (now : ℚ) (hnow : s.last_request_time ≤ now) :
      RLStep s (rlRefill s now)
  | acquire (s : RLState) (hpos : 0 < s.tokens) : RLStep s (rlAcquireDec s)

/-! ### Photo persistence effect of the loader
(src/core/adapters/loaders/database.py)

Only the listing_photos table state is modelled: _save_photos deletes the
rows of the listing and inserts the new ones; save_listing and
bulk_save_listings call it only for a truthy (non-empty) photo list, bulk
additionally only for a truthy listing id. -/

structure PhotoRow where
  listing_id : Int
  url : String
  order : Int
deriving DecidableEq

/-- DatabaseListingLoader._save_photos acting on the photo table rows. -/
def savePhotos (rows : List PhotoRow) (lid : Int) (photos : List Image) : List PhotoRow :=
  let remaining := rows.filter (fun r => r.listing_id ≠ lid)
  if photos = [] then remaining
  else remaining ++ photos.map (fun ph => { listing_id := lid, url := ph.url, order := ph.order })

/-- The photo effect of DatabaseListingLoader.save_listing: _save_photos runs
only when listing.photos is truthy. -/
def saveListingPhotoEffect (rows : List PhotoRow) (lid : Int) (photos : List Image) :
    List PhotoRow :=
  if photos ≠ [] then savePhotos rows lid photos else rows

/-- The photo effect of DatabaseListingLoader.bulk_save_listings: per listing,
_save_photos runs only when both photos and the id are truthy. -/
def bulkSavePhotoEffect (rows : List PhotoRow) (ls : List (Int × List Image)) : List PhotoRow :=
  ls.foldl (fun acc li => if li.2 ≠ [] ∧ li.1 ≠ 0 then savePhotos acc li.1 li.2 else acc) rows

/-! ### ETL orchestrator (src/core/adapters/etl/domria_pipeline.py)

The transform phase catches per-item normalization errors; run is modelled
from the point where extraction has yielded its raw items, with the loader
outcome passed in as a function. -/

structure ETLResult where
  total_fetched : Int
  total_normalized : Int
  total_loaded : Int
  total_failed : Int
  errors : List String
deriving DecidableEq

/-- DomRiaETLPipeline.transform: failed items are dropped, order kept. -/
def transform (normalize : RawListing → Except String Listing) (raws : List RawListing) :
    List Listing :=
  raws.filterMap (fun raw => (normalize raw).toOption)

/-- DomRiaETLPipeline.run after a successful extraction of `raws`: transform
never raises; a loader failure is caught once at the top and recorded. -/
def runPipeline (normalize : RawListing → Except String Listing) (raws : List RawListing)
    (load : List Listing → Except String Unit) : ETLResult :=
  let listings := transform normalize raws
  match load listings with
  | .ok _ =>
    { total_fetched := (raws.length : Int), total_normalized := (listings.length : Int),
      total_loaded := (listings.length : Int), total_failed := 0, errors := [] }
  | .error e =>
    { total_fetched := (raws.length : Int), total_normalized := (listings.length : Int),
      total_loaded := 0, total_failed := 1, errors := ["Pipeline error: " ++ e] }

/-! ### Concrete sample data used by counterexamples and witnesses -/

def emptyPayload : DomRiaPayload :=
  { realty_id := none, beautiful_url := none, location := none, rooms_count := none,
    total_square_meters := none, floor := none, price := none, currency_type_id := none,
    description_uk := none, description := none, city_name_uk := none, city_name := none,
    district_name_uk := none, district_name := none, street_name_uk := none,
    street_name := none, building_number_str := none, state_name_uk := none,
    state_name := none, realty_type_name_uk := none, realty_type_name := none,
    latitude := none, longitude := none, photos := [] }

/-- A DomRia payload carrying only an id and a url slug: no address, rooms,
area or floor data. -/
def c1payload : DomRiaPayload :=
  { emptyPayload with realty_id := some 12345, beautiful_url := some "x" }

def c1raw : RawListing :=
  { source_code := "domria", external_id := "12345", payload := c1payload }

/-- The listing DomRiaNormalizer.normalize produces from c1raw. -/
def c1listing : Listing :=
  { id := -1, source_code := "domria", external_id := "12345",
    url := "https://dom.ria.com/x", title := "Без назви", owner_id := none,
    owner_info := none, price := none, address := none, location := none,
    room_count := none, area := none, floor := none, total_floors := none,
    description := none, photos := [], status := ListingStatus.active,
    is_verified := false, view_count := 0,
    fingerprint := domriaGenFingerprint c1payload,
    first_seen_at := 0, last_seen_at := 0, created_at := 0, updated_at := 0 }

def noContact : ContactInfo :=
  { phone := none, telegram := none, viber := none, whatsapp := none, email := none }

def noContactOwner : OwnerInfo :=
  { name := none, owner_type := "unknown", contact := none }

def baseListing : Listing :=
  { id := 1, source_code := "domria", external_id := "1",
    url := "https://dom.ria.com/a", title := "t", owner_id := none,
    owner_info := none, price := none, address := none, location := none,
    room_count := none, area := none, floor := none, total_floors := none,
    description := none, photos := [], status := ListingStatus.active,
    is_verified := false, view_count := 0, fingerprint := "F",
    first_seen_at := 10, last_seen_at := 10, created_at := 10, updated_at := 10 }

def dupListing : Listing := { baseListing with id := 2, first_seen_at := 5 }

def staleRow : PhotoRow :=
  { listing_id := 7, url := "https://cdn.riastatic.com/old.jpg", order := 0 }

def freshImage : Image := { url := "https://cdn.riastatic.com/new.jpg", order := 1 }

/-- A payload whose discrete latitude is out of range while no combined
"lat,lon" string is present. -/
def badGeoPayload : DomRiaPayload :=
  { emptyPayload with latitude := some (.int 999), longitude := some (.int 0) }

/-- A payload with only a latitude among the discrete fields. -/
def halfGeoPayload : DomRiaPayload :=
  { emptyPayload with latitude := some (.int 50) }

def rawItem (eid : String) : RawListing :=
  { source_code := "domria", external_id := eid, payload := emptyPayload }

/-- A normalizer stub that fails exactly on external id "2". -/
def normSample : RawListing → Except String Listing :=
  fun r => if r.external_id = "2" then .error "missing required title" else .ok baseListing

def loadOk : List Listing → Except String Unit := fun _ => .ok ()

/-! ### Digest length facts (the hex digest of sha256 always has 64
characters, hence is never the empty string) -/

theorem flatMap_hex_length (bs : List Nat) : (bs.flatMap byteHexChars).length = 2 * bs.length := by
  induction bs with
  | nil => simp
  | cons b t ih => simp [byteHexChars, ih]; omega

theorem sha256Digest_length (msg : List Nat) : (sha256Digest msg).length = 32 := by
  simp [sha256Digest, wordBytes]

theorem sha256Hex_data_length (s : String) : (sha256Hex s).data.length = 64 := by
  show ((sha256Digest (strUtf8 s)).flatMap byteHexChars).length = 64
  rw [flatMap_hex_length, sha256Digest_length]

theorem sha256Hex_ne_empty (s : String) : sha256Hex s ≠ "" := by
  intro h
  have h64 := sha256Hex_data_length s
  rw [h] at h64
  simp at h64

/-! ### Helper lemmas shared by the claim theorems -/

theorem foldl_min_le_init (l : List Int) : ∀ a : Int, l.foldl min a ≤ a := by
  induction l with
  | nil => intro a; exact le_refl a
  | cons b t ih => intro a; exact le_trans (ih (min a b)) (min_le_left a b)

/-- When the Listing constructor succeeds with an explicitly supplied
non-empty fingerprint, the stored fingerprint is exactly that string. -/
theorem mkListing_ok_fingerprint (now lid : Int) (sc eid url title : String)
    (oid : Option Int) (oi : Option OwnerInfo) (pr : Option Money) (ad : Option Address)
    (loc : Option GeoLocation) (rc : Option Int) (ar : Option ℚ) (fl : Option Int)
    (tf : Option Int) (de : Option String) (ph : List Image) (st : ListingStatus)
    (iv : Bool) (vc : Int) (f : String) (fs ls ca ua : Option Int) (l : Listing)
    (hf : f ≠ "")
    (h : mkListing now lid sc eid url title oid oi pr ad loc rc ar fl tf de ph st iv vc
      (some f) fs ls ca ua = .ok l) :
    l.fingerprint = f := by
  simp only [mkListing] at h
  split_ifs at h
  all_goals first
    | exact Except.noConfusion h
    | (cases h; rfl)

set_option maxRecDepth 100000 in
/-- Normalizing the sample raw item succeeds and yields c1listing. -/
theorem domriaNormalize_c1raw : domriaNormalize 0 c1raw = .ok c1listing := by
  have hne : domriaGenFingerprint c1raw.payload ≠ "" := sha256Hex_ne_empty _
  unfold domriaNormalize
  have h1 : extractPrice c1raw.payload = .ok none := rfl
  have h2 : extractLocation c1raw.payload = .ok none := rfl
  have h3 : extractPhotos c1raw.payload = .ok [] := rfl
  simp only [h1, h2, h3]
  simp only [mkListing]
  rw [if_neg (by decide), if_neg (by decide), if_neg (by decide), if_neg (by decide)]
  rw [if_pos hne]
  rfl

/-! ### Claim theorems -/

/-- C1 counterexample: the normalizer successfully converts c1raw, but the
resulting Listing's fingerprint is the full sha256 hexdigest of the payload
key realty_id|location|rooms_count|total_square_meters|floor|price, not the
32-character hash of the address/rooms/area/floor (or source, external_id)
key described by the claim — Listing._generate_fingerprint computes the
latter, and the two differ on this input. -/
theorem normalizer_fingerprint_differs_from_listing_key :
    domriaNormalize 0 c1raw = .ok c1listing ∧
    c1listing.fingerprint ≠
      listingGenFingerprint c1listing.source_code c1listing.external_id c1listing.address
        c1listing.room_count c1listing.area c1listing.floor := by
  refine ⟨domriaNormalize_c1raw, fun h => ?_⟩
  have h64 : c1listing.fingerprint.data.length = 64 := sha256Hex_data_length _
  have h32 : (listingGenFingerprint c1listing.source_code c1listing.external_id
      c1listing.address c1listing.room_count c1listing.area c1listing.floor).data.length
      = 32 := by
    show (List.take 32 (sha256Hex _).data).length = 32
    rw [List.length_take, sha256Hex_data_length]
    norm_num
  rw [h, h32] at h64
  exact absurd h64 (by norm_num)

/-- C1 (amended): for every raw payload the normalizer successfully converts,
the resulting Listing's fingerprint equals the full sha256 hexdigest of the
pipe-joined DomRia payload key (realty_id, location, rooms_count,
total_square_meters, floor, price); the address-based Listing fingerprint is
used only when no fingerprint is supplied to the constructor. -/
theorem normalizer_fingerprint_payload_hash (now : Int) (raw : RawListing) (l : Listing)
    (h : domriaNormalize now raw = .ok l) :
    l.fingerprint = domriaGenFingerprint raw.payload := by
  simp only [domriaNormalize] at h
  cases hp : extractPrice raw.payload <;> rw [hp] at h
  · exact Except.noConfusion h
  cases hl : extractLocation raw.payload <;> rw [hl] at h
  · exact Except.noConfusion h
  cases hph : extractPhotos raw.payload <;> rw [hph] at h
  · exact Except.noConfusion h
  exact mkListing_ok_fingerprint _ _ _ _ _ _ _ _ _ _ _ _ _ _ _ _ _ _ _ _
    (domriaGenFingerprint raw.payload) _ _ _ _ _ (sha256Hex_ne_empty _) h

/-- C1 witness: the amended theorem applied to the concrete sample raw item. -/
theorem normalizer_fingerprint_payload_hash_witness :
    c1listing.fingerprint = domriaGenFingerprint c1raw.payload :=
  normalizer_fingerprint_payload_hash 0 c1raw c1listing domriaNormalize_c1raw

/-- C2: with retry_attempts = 2 and retry_on = {500}, when both attempts
return a 500-status response (and none raises), RetryPolicy.send returns
None — last_response is never assigned in the source — instead of the last
response received, as the spec requires. -/
theorem retry_exhausted_bad_status_returns_none :
    retrySend 2 [500] (fun i => .ok { status_code := 500, body := toString i }) =
      .ok none := rfl

/-- C3: the domain-level generate_owner_fingerprint raises whenever phone,
email and telegram are all absent, as the claim requires; but the database
loader's private fingerprint generator instead silently substitutes the
placeholder key "unknown" (hashed) for an owner with no contact and no name,
contradicting the spec's "never silently substituted with a placeholder". -/
theorem owner_fingerprint_zero_channels :
    (∀ contact : ContactInfo, contact.phone = none → contact.email = none →
      contact.telegram = none →
      generate_owner_fingerprint contact =
        .error "At least one contact method is required for fingerprinting") ∧
    dbOwnerFingerprint noContactOwner = strTake (sha256Hex "unknown") 64 := by
  constructor
  · intro c h1 h2 h3
    simp [generate_owner_fingerprint, h1, h2, h3]
  · rfl

/-- C3 witness: the error branch applied to the all-None contact record. -/
theorem owner_fingerprint_zero_channels_witness :
    generate_owner_fingerprint noContact =
      .error "At least one contact method is required for fingerprinting" :=
  owner_fingerprint_zero_channels.1 noContact rfl rfl rfl

/-- C4: is_duplicate_of returns true exactly when the fingerprints match, or
both listings carry an address whose search keys match while room count and
floor match exactly and the areas (None read as 0, as the source's "area or
0" does) differ by less than 5. -/
theorem is_duplicate_of_iff (l other : Listing) :
    l.is_duplicate_of other = true ↔
      (l.fingerprint = other.fingerprint ∨
        ∃ a oa, l.address = some a ∧ other.address = some oa ∧
          a.to_search_key = oa.to_search_key ∧ l.room_count = other.room_count ∧
          l.floor = other.floor ∧ |l.area.getD 0 - other.area.getD 0| < 5) := by
  unfold Listing.is_duplicate_of
  by_cases hfp : l.fingerprint = other.fingerprint
  · simp [hfp]
  · rw [if_neg hfp]
    cases ha : l.address with
    | none => simp [hfp]
    | some a =>
      cases hb : other.address with
      | none => simp [hfp]
      | some oa => simp [hfp, decide_eq_true_eq]

/-- C4 witness: the characterization applied to two concrete listings with
equal fingerprints. -/
theorem is_duplicate_of_iff_witness :
    baseListing.is_duplicate_of dupListing = true ↔
      (baseListing.fingerprint = dupListing.fingerprint ∨
        ∃ a oa, baseListing.address = some a ∧ dupListing.address = some oa ∧
          a.to_search_key = oa.to_search_key ∧
          baseListing.room_count = dupListing.room_count ∧
          baseListing.floor = dupListing.floor ∧
          |baseListing.area.getD 0 - dupListing.area.getD 0| < 5) :=
  is_duplicate_of_iff baseListing dupListing

/-- C5: merge_duplicates marks every duplicate with status "duplicate", sets
the primary's first-seen timestamp to the minimum of the primary's and all
duplicates' first-seen timestamps, and leaves the primary's other fields
(status, price, title, fingerprint, natural key, photos) unchanged. -/
theorem merge_duplicates_effects (now : Int) (primary : Listing) (duplicates : List Listing) :
    (∀ d ∈ (merge_duplicates now primary duplicates).2, d.status = ListingStatus.duplicate) ∧
    (merge_duplicates now primary duplicates).1.first_seen_at =
      (duplicates.map (fun d => d.first_seen_at)).foldl min primary.first_seen_at ∧
    (merge_duplicates now primary duplicates).1.status = primary.status ∧
    (merge_duplicates now primary duplicates).1.price = primary.price ∧
    (merge_duplicates now primary duplicates).1.title = primary.title ∧
    (merge_duplicates now primary duplicates).1.fingerprint = primary.fingerprint ∧
    (merge_duplicates now primary duplicates).1.source_code = primary.source_code ∧
    (merge_duplicates now primary duplicates).1.external_id = primary.external_id ∧
    (merge_duplicates now primary duplicates).1.photos = primary.photos := by
  simp only [merge_duplicates]
  refine ⟨?_, ?_, ?_, ?_, ?_, ?_, ?_, ?_, ?_⟩
  · intro d hd
    rw [List.mem_map] at hd
    obtain ⟨d0, _, rfl⟩ := hd
    unfold Listing.change_status
    split
    · rfl
    · next hcond => exact not_not.mp hcond
  · split
    · rfl
    · next h =>
      have hle := foldl_min_le_init (duplicates.map (fun d => d.first_seen_at))
        primary.first_seen_at
      omega
  all_goals split <;> rfl

/-- C5 witness: merging baseListing (first seen at 10) with the duplicate
first seen at 5 moves the primary's first-seen timestamp to the fold
minimum. -/
theorem merge_duplicates_effects_witness :
    (merge_duplicates 50 baseListing [dupListing]).1.first_seen_at =
      ([dupListing].map (fun d => d.first_seen_at)).foldl min baseListing.first_seen_at :=
  (merge_duplicates_effects 50 baseListing [dupListing]).2.1

/-- C6: with 3 raw items where exactly the second fails normalization,
transform returns the two listings from the other items, and a run over that
batch reports total_fetched = 3, total_normalized = 2, total_loaded = 2,
total_failed = 0 with no recorded errors. -/
theorem transform_drops_failed_item (normalize : RawListing → Except String Listing)
    (r1 r2 r3 : RawListing) (l1 l3 : Listing) (e : String)
    (load : List Listing → Except String Unit)
    (h1 : normalize r1 = .ok l1) (h2 : normalize r2 = .error e)
    (h3 : normalize r3 = .ok l3) (hload : load [l1, l3] = .ok ()) :
    transform normalize [r1, r2, r3] = [l1, l3] ∧
    runPipeline normalize [r1, r2, r3] load =
      { total_fetched := 3, total_normalized := 2, total_loaded := 2,
        total_failed := 0, errors := [] } := by
  have ht : transform normalize [r1, r2, r3] = [l1, l3] := by
    simp [transform, h1, h2, h3, Except.toOption]
  refine ⟨ht, ?_⟩
  simp [runPipeline, ht, hload]

/-- C6 witness: the theorem applied to a concrete batch whose second item
fails normalization. -/
theorem transform_drops_failed_item_witness :
    transform normSample [rawItem "1", rawItem "2", rawItem "3"] =
      [baseListing, baseListing] ∧
    runPipeline normSample [rawItem "1", rawItem "2", rawItem "3"] loadOk =
      { total_fetched := 3, total_normalized := 2, total_loaded := 2,
        total_failed := 0, errors := [] } :=
  transform_drops_failed_item normSample (rawItem "1") (rawItem "2") (rawItem "3")
    baseListing baseListing "missing required title" loadOk rfl rfl rfl rfl

/-- C7 counterexample: saving a listing whose new photo list is empty leaves
the existing photo row in place (for both save_listing and
bulk_save_listings), refuting "all existing photo rows are deleted ... for
every listing, including one whose new photo list is empty". -/
theorem empty_photo_list_keeps_rows :
    saveListingPhotoEffect [staleRow] 7 [] = [staleRow] ∧
    bulkSavePhotoEffect [staleRow] [(7, [])] = [staleRow] := by
  constructor <;> rfl

/-- C7 (amended): photo persistence is replace-on-write only when the new
photo list is non-empty — then all existing rows of the listing are deleted
and the ordered new list inserted; a listing with an empty photo list keeps
its existing rows untouched, and the bulk path additionally requires a
truthy (nonzero) listing id. -/
theorem photo_replace_on_write_guarded (rows : List PhotoRow) (lid : Int)
    (photos : List Image) :
    (photos = [] → saveListingPhotoEffect rows lid photos = rows) ∧
    (photos ≠ [] →
      saveListingPhotoEffect rows lid photos =
        rows.filter (fun r => r.listing_id ≠ lid) ++
          photos.map (fun ph => { listing_id := lid, url := ph.url, order := ph.order })) ∧
    bulkSavePhotoEffect rows [(lid, photos)] =
      (if photos ≠ [] ∧ lid ≠ 0 then saveListingPhotoEffect rows lid photos else rows) := by
  refine ⟨fun h => by simp [saveListingPhotoEffect, h], fun h => ?_, ?_⟩
  · simp [saveListingPhotoEffect, savePhotos, h]
  · by_cases hc : photos ≠ [] ∧ lid ≠ 0
    · simp [bulkSavePhotoEffect, saveListingPhotoEffect, hc, hc.1]
    · simp only [bulkSavePhotoEffect, List.foldl]
      rw [if_neg hc, if_neg hc]

/-- C7 witness: a non-empty photo list does replace the stale row. -/
theorem photo_replace_on_write_guarded_witness :
    saveListingPhotoEffect [staleRow] 7 [freshImage] =
      [staleRow].filter (fun r => r.listing_id ≠ 7) ++
        [freshImage].map (fun ph => { listing_id := 7, url := ph.url, order := ph.order }) :=
  (photo_replace_on_write_guarded [staleRow] 7 [freshImage]).2.1 (by simp)

/-- C8 counterexample: a payload with no combined location string and an
out-of-range discrete latitude makes _extract_location raise the GeoLocation
range error instead of yielding None, refuting "extracting the geolocation
never raises". -/
theorem extract_location_discrete_out_of_range_raises :
    extractLocation badGeoPayload = .error "Latitude must be between -90 and 90" := rfl

/-- C8 (amended): parsing the combined "lat,lon" string never raises
(malformed or out-of-range input yields None); with the string absent,
missing discrete latitude or longitude yields None, but when both discrete
fields are present the result is exactly the GeoLocation construction, whose
range errors propagate. -/
theorem extract_location_raise_conditions (p : DomRiaPayload) :
    (truthyS p.location = true → ∃ r, extractLocation p = .ok r) ∧
    (truthyS p.location = false → (p.latitude = none ∨ p.longitude = none) →
      extractLocation p = .ok none) ∧
    (truthyS p.location = false → ∀ lat lon, p.latitude = some lat → p.longitude = some lon →
      extractLocation p = (mkGeoLocation lat.toQ lon.toQ).map some) := by
  refine ⟨?_, ?_, ?_⟩
  · intro h
    unfold extractLocation
    rw [if_neg (by simp [h])]
    dsimp only
    split <;> (try split) <;> (try split) <;> exact ⟨_, rfl⟩
  · intro h hor
    unfold extractLocation
    rw [if_pos (by simp [h])]
    rcases hor with h1 | h1
    · rw [h1]
    · rw [h1]
      cases p.latitude <;> rfl
  · intro h lat lon hlat hlon
    unfold extractLocation
    rw [if_pos (by simp [h]), hlat, hlon]

/-- C8 witness: a payload with only a discrete latitude yields no
geolocation. -/
theorem extract_location_raise_conditions_witness :
    extractLocation halfGeoPayload = .ok none :=
  (extract_location_raise_conditions halfGeoPayload).2.1 rfl (Or.inr rfl)

/-- C9: for exp_jitter with base 0.25 and cap 5.0 at attempt 10, the
pre-jitter delay is min(0.25 * 2^9, 5.0) = 5.0, and for every jitter
multiplier u in [0.5, 1.5] the returned delay 5u lies in [2.5, 7.5]. -/
theorem exp_jitter_attempt_ten_bounds :
    expDelay (1/4 : ℚ) 5 10 = 5 ∧
    ∀ u : ℚ, 1/2 ≤ u → u ≤ 3/2 →
      sleepDuration "exp_jitter" (1/4) 5 10 u = .ok (5 * u) ∧
      5/2 ≤ 5 * u ∧ 5 * u ≤ 15/2 := by
  have hd : expDelay (1/4 : ℚ) 5 10 = 5 := by
    unfold expDelay
    norm_num
  refine ⟨hd, fun u h1 h2 => ⟨?_, by linarith, by linarith⟩⟩
  unfold sleepDuration
  rw [if_neg (by decide), if_neg (by decide), if_neg (by decide), if_pos rfl, hd]

/-- C9 witness: the jittered branch evaluated at the midpoint multiplier. -/
theorem exp_jitter_attempt_ten_bounds_witness :
    sleepDuration "exp_jitter" (1/4 : ℚ) 5 10 1 = .ok (5 * 1) ∧
    5/2 ≤ 5 * (1 : ℚ) ∧ 5 * (1 : ℚ) ≤ 15/2 :=
  exp_jitter_attempt_ten_bounds.2 1 (by norm_num) (by norm_num)

/-- C10: starting from initialization with a nonnegative burst, every
reachable rate-limiter state satisfies 0 ≤ tokens ≤ capacity: a refill caps
the count at capacity and only ever adds tokens, and the acquire decrement
happens only after the wait loop has observed a positive count. -/
theorem rate_limiter_token_invariant (rps : ℚ) (burst : Int) (now0 : ℚ)
    (hburst : 0 ≤ burst) :
    ∀ s : RLState, Relation.ReflTransGen RLStep (rlInit rps burst now0) s →
      0 ≤ s.tokens ∧ s.tokens ≤ s.capacity := by
  intro s h
  induction h with
  | refl => exact ⟨hburst, le_refl _⟩
  | tail hab hbc ih =>
    cases hbc with
    | refill tnow hnow =>
      simp only [rlRefill]
      split
      · next hadd => constructor <;> simp <;> omega
      · exact ih
    | acquire hpos =>
      simp only [rlAcquireDec]
      exact ⟨by simp; omega, by simp; omega⟩

/-- C10 witness: the invariant at the freshly initialized limiter with
rps = 1 and burst = 1. -/
theorem rate_limiter_token_invariant_witness :
    0 ≤ (rlInit 1 1 0).tokens ∧ (rlInit 1 1 0).tokens ≤ (rlInit 1 1 0).capacity :=
  rate_limiter_token_invariant 1 1 0 (by norm_num) (rlInit 1 1 0)
    Relation.ReflTransGen.refl

end Rendoor
